import Mathlib

/-!
Shallow embedding of the Returnley purchase-lifecycle core (src/App.tsx and
the components it drives): the transaction data model, purchase creation with
the fast-food short-circuit, call resolution with nag escalation, quick
actions, the status toggle, the poll-based nag scheduler's selection rule,
and the derived savings statistics.  JS numbers are modelled as exact
rationals, JS `undefined`-able fields as `Option`, and the asynchronous
analysis gateway as an explicit `Except` outcome passed into each operation.
-/

namespace Returnley

/-- The transaction statuses of src/unnamed/part_005 (`TransactionStatus`). -/
inductive TransactionStatus where
  | Approved
  | Flagged
  | Returned
  | Pending
  | Kept
  | Urge
  deriving DecidableEq, Repr

/-- A transaction record (src/unnamed/part_005, interface `Transaction`). -/
structure Transaction where
  isExample : Bool := false
  id : String
  item : String
  amount : Rat
  category : String
  status : TransactionStatus
  date : String
  isReturnable : Bool
  returnBy : Option String := none
  nagCount : Nat
  nextNagTimestamp : Option Nat := none
  justification : Option String := none
  emotionalContext : Option String := none
  hotTake : Option String := none
  error : Option String := none
  deriving DecidableEq, Repr

/-- The AI's structured verdict (src/unnamed/part_005, `PurchaseAnalysis`). -/
structure PurchaseAnalysis where
  isNecessary : Bool
  reasoning : String
  callScript : String
  hotTake : Option String := none
  estimatedReturnBy : Option String := none
  deriving DecidableEq, Repr

/-- What `analyzePurchaseAndGenerateAudio` resolves with on success. -/
structure AnalysisResult where
  analysis : PurchaseAnalysis
  audioUrl : String
  deriving DecidableEq, Repr

/-- Constant `MAX_NAGS` (App.tsx line 109). -/
def MAX_NAGS : Nat := 7

/-- Constant `NAG_INTERVAL_MS` (App.tsx line 110). -/
def NAG_INTERVAL_MS : Nat := 20000

/-- Does the first character list start with the second? -/
def charsStart : List Char → List Char → Bool
  | _, [] => true
  | [], _ :: _ => false
  | b :: l, a :: p => a = b && charsStart l p

/-- Does the first character list contain the second as a contiguous run? -/
def charsContain : List Char → List Char → Bool
  | [], needle => needle.isEmpty
  | b :: rest, needle => charsStart (b :: rest) needle || charsContain rest needle

/-- JS `hay.includes(needle)`: substring containment. -/
def strIncludes (hay needle : String) : Bool :=
  charsContain hay.toList needle.toList

/-- JS `s.toLowerCase()` (character-wise case folding). -/
def strToLower (s : String) : String :=
  String.mk (s.toList.map Char.toLower)

/-- Function `isFastFoodPurchase` (App.tsx lines 300-306).  The keyword list lives in
src/lib/keywords (not part of the sources given), so it is a parameter. -/
def isFastFoodPurchase (keywords : List String) (item category : String) : Bool :=
  if category = "Fast Food" then
    true
  else
    keywords.any (fun keyword => strIncludes (strToLower item) keyword)

/-- The arguments of `handleAddPurchase` (App.tsx lines 309-318). -/
structure Submission where
  item : String
  amount : Rat
  category : String
  isReturnable : Bool
  returnBy : Option String := none
  justification : Option String := none
  emotionalContext : Option String := none
  isUrge : Bool := false
  deriving DecidableEq, Repr

/-- The observable outcome of one `handleAddPurchase` run: the transaction
prepended to the list, the staged call's transaction (the `setCallState`
argument) if any, and how many analysis-gateway calls were performed. -/
structure AddPurchaseResult where
  newTransaction : Transaction
  stagedCall : Option Transaction
  gatewayCalls : Nat
  deriving DecidableEq, Repr

/-- Handler `handleAddPurchase` (App.tsx lines 309-412).  `gateway` is the outcome the
awaited `analyzePurchaseAndGenerateAudio` call would have; on the fast-food
short-circuit the function returns before that call, hence `gatewayCalls = 0`
there. -/
def handleAddPurchase (keywords : List String) (sub : Submission)
    (id date : String) (gateway : Except Unit AnalysisResult) :
    AddPurchaseResult :=
  if isFastFoodPurchase keywords sub.item sub.category
      && !sub.isReturnable && !sub.isUrge then
    { newTransaction :=
        { id := id
          item := sub.item
          amount := sub.amount
          category := "Fast Food"
          status := TransactionStatus.Kept
          date := date
          isReturnable := false
          nagCount := MAX_NAGS
          justification := sub.justification
          emotionalContext := sub.emotionalContext }
      stagedCall := none
      gatewayCalls := 0 }
  else
    match gateway with
    | Except.ok result =>
      let status :=
        if sub.isUrge then TransactionStatus.Urge
        else if result.analysis.isNecessary then TransactionStatus.Approved
        else TransactionStatus.Pending
      let newTransaction : Transaction :=
        { id := id
          item := sub.item
          amount := sub.amount
          category := sub.category
          status := status
          date := date
          isReturnable := sub.isReturnable
          returnBy := result.analysis.estimatedReturnBy.orElse fun _ => sub.returnBy
          justification := sub.justification
          nagCount := 0
          emotionalContext := sub.emotionalContext
          hotTake := result.analysis.hotTake }
      { newTransaction := newTransaction
        stagedCall :=
          if !result.analysis.isNecessary && !sub.isUrge then some newTransaction
          else none
        gatewayCalls := 1 }
    | Except.error _ =>
      { newTransaction :=
          { id := id
            item := sub.item
            amount := sub.amount
            category := sub.category
            status := if sub.isUrge then TransactionStatus.Urge
                      else TransactionStatus.Flagged
            date := date
            isReturnable := sub.isReturnable
            returnBy := sub.returnBy
            justification := sub.justification
            nagCount := 0
            emotionalContext := sub.emotionalContext
            error := some "Analysis failed." }
        stagedCall := none
        gatewayCalls := 1 }

/-- Helper `updateTransactionStatus` (App.tsx lines 201-215): set the status of the
matching transaction; a transition to Returned or Kept also deletes
`nextNagTimestamp` and `error`. -/
def updateTransactionStatus (id : String) (status : TransactionStatus)
    (txs : List Transaction) : List Transaction :=
  txs.map fun t =>
    if t.id = id then
      if status = TransactionStatus.Returned ∨ status = TransactionStatus.Kept then
        { t with status := status, nextNagTimestamp := none, error := none }
      else
        { t with status := status }
    else t

/-- The decision passed to `handleCallResolve` ('return' or 'keep'). -/
inductive Decision where
  | ret
  | keep
  deriving DecidableEq, Repr

/-- The per-transaction update of `handleCallResolve` (App.tsx lines 541-571);
`amount` and `isReturnable` come from the call-state snapshot. -/
def resolveTransaction (amount : Rat) (isReturnable : Bool)
    (decision : Decision) (now : Nat) (t : Transaction) : Transaction :=
  match decision with
  | Decision.ret =>
    { t with status := TransactionStatus.Returned, nextNagTimestamp := none }
  | Decision.keep =>
    let isFirstTimeFlagged := t.nagCount = 0
    if amount > 250 ∧ isReturnable = true then
      if isFirstTimeFlagged then
        { t with status := TransactionStatus.Flagged
                 nagCount := 1
                 nextNagTimestamp := some (now + NAG_INTERVAL_MS) }
      else
        let newNagCount := t.nagCount + 1
        if newNagCount ≥ MAX_NAGS then
          { t with status := TransactionStatus.Kept
                   nagCount := newNagCount
                   nextNagTimestamp := none }
        else
          { t with status := TransactionStatus.Flagged
                   nagCount := newNagCount
                   nextNagTimestamp := some (now + NAG_INTERVAL_MS) }
    else
      { t with status := TransactionStatus.Flagged }

/-- Handler `handleCallResolve` (App.tsx lines 537-575), acting on the whole list:
`callTx` is `callState.transaction`. -/
def handleCallResolve (callTx : Transaction) (decision : Decision) (now : Nat)
    (txs : List Transaction) : List Transaction :=
  txs.map fun t =>
    if t.id = callTx.id then
      resolveTransaction callTx.amount callTx.isReturnable decision now t
    else t

/-- The decision passed to `handleQuickAction`. -/
inductive QuickDecision where
  | ret
  | keep
  | buy
  deriving DecidableEq, Repr

/-- The observable outcome of one `handleQuickAction` run. -/
structure QuickActionResult where
  transactions : List Transaction
  stagedCall : Option Transaction
  gatewayCalls : Nat
  deriving DecidableEq, Repr

/-- Handler `handleQuickAction` (App.tsx lines 436-519).  For `buy`, `gateway` is the
outcome the awaited analysis call would have; the fast-food trap returns
before that call. -/
def handleQuickAction (keywords : List String) (txs : List Transaction)
    (transactionId : String) (decision : QuickDecision)
    (gateway : Except Unit AnalysisResult) : QuickActionResult :=
  match decision with
  | QuickDecision.ret =>
    { transactions := updateTransactionStatus transactionId TransactionStatus.Returned txs
      stagedCall := none
      gatewayCalls := 0 }
  | QuickDecision.keep =>
    { transactions := updateTransactionStatus transactionId TransactionStatus.Kept txs
      stagedCall := none
      gatewayCalls := 0 }
  | QuickDecision.buy =>
    match txs.find? (fun t => t.id = transactionId) with
    | none => { transactions := txs, stagedCall := none, gatewayCalls := 0 }
    | some transaction =>
      if isFastFoodPurchase keywords transaction.item transaction.category
          && !transaction.isReturnable then
        { transactions := txs.map fun t =>
            if t.id = transactionId then
              { t with status := TransactionStatus.Kept
                       nagCount := MAX_NAGS
                       hotTake := none }
            else t
          stagedCall := none
          gatewayCalls := 0 }
      else
        match gateway with
        | Except.ok result =>
          let newStatus :=
            if result.analysis.isNecessary then TransactionStatus.Approved
            else TransactionStatus.Pending
          { transactions := txs.map fun t =>
              if t.id = transactionId then
                { t with status := newStatus
                         hotTake := none
                         returnBy := result.analysis.estimatedReturnBy.orElse
                           fun _ => t.returnBy }
              else t
            stagedCall :=
              if !result.analysis.isNecessary then
                some { transaction with status := newStatus }
              else none
            gatewayCalls := 1 }
        | Except.error _ =>
          { transactions := updateTransactionStatus transactionId TransactionStatus.Flagged txs
            stagedCall := none
            gatewayCalls := 1 }

/-- Handler `handleStatusToggle` (App.tsx lines 521-535). -/
def handleStatusToggle (transactionId : String) (txs : List Transaction) :
    List Transaction :=
  txs.map fun t =>
    if t.id = transactionId then
      if t.status = TransactionStatus.Kept then
        { t with status := TransactionStatus.Returned }
      else if t.status = TransactionStatus.Returned then
        { t with status := TransactionStatus.Kept }
      else t
    else t

/-- The due test of `tick` (App.tsx line 252):
`t.nextNagTimestamp && now >= t.nextNagTimestamp`.  A JS timestamp of 0 is
falsy, hence the `ts ≠ 0` conjunct. -/
def dueForNag (now : Nat) (t : Transaction) : Bool :=
  match t.nextNagTimestamp with
  | some ts => ts ≠ 0 ∧ now ≥ ts
  | none => false

/-- The transaction `tick` selects (App.tsx lines 250-253):
`transactions.find(...)`, i.e. the first due one in list order. -/
def transactionToNag (now : Nat) (txs : List Transaction) : Option Transaction :=
  txs.find? (dueForNag now)

/-- Flag `hasRealTransactions` (App.tsx line 619). -/
def hasRealTransactions (txs : List Transaction) : Bool :=
  txs.any fun t => !t.isExample

/-- List `realReturnedTransactionsForStats` (App.tsx line 633). -/
def realReturnedTransactionsForStats (txs : List Transaction) : List Transaction :=
  txs.filter fun t => t.status = TransactionStatus.Returned && !t.isExample

/-- Statistic `totalSaved` (App.tsx line 636): `reduce((sum, t) => sum + t.amount, 0)`. -/
def totalSaved (txs : List Transaction) : Rat :=
  (realReturnedTransactionsForStats txs).foldl (fun sum t => sum + t.amount) 0

/-- Statistic `displayedTotalSaved` (App.tsx lines 639-643). -/
def displayedTotalSaved (txs : List Transaction) : Rat :=
  if hasRealTransactions txs then
    totalSaved txs
  else
    (txs.filter fun t => t.status = TransactionStatus.Returned && t.isExample).foldl
      (fun sum t => sum + t.amount) 0

/-- Statistic `goalSaved` (App.tsx line 671): `totalSaved * 0.40`. -/
def goalSaved (txs : List Transaction) : Rat :=
  totalSaved txs * (0.40 : Rat)

/-- Statistic `bankRefund` (src/unnamed/part_003 line 17, `GoalProgress`):
`totalReturned * 0.60`; App.tsx line 779 passes `totalSaved` as
`totalReturned`. -/
def bankRefund (totalReturned : Rat) : Rat :=
  totalReturned * (0.60 : Rat)

/-- Seed data `getSampleTransactions` (App.tsx lines 23-96); the computed date strings
are parameters since they depend on the clock. -/
def getSampleTransactions (dLastWeek dFiveDaysAgo dYesterday dToday dReturnBy : String) :
    List Transaction :=
  [ { id := "sample-1"
      item := "Vintage Leather Jacket"
      amount := 375
      category := "Shopping"
      status := TransactionStatus.Returned
      date := dLastWeek
      isReturnable := true
      nagCount := 0
      emotionalContext := some "Neutral / Normal"
      isExample := true },
    { id := "sample-2"
      item := "Seven-Course Tasting Menu"
      amount := 220
      category := "Dining & Entertainment"
      status := TransactionStatus.Kept
      date := dFiveDaysAgo
      isReturnable := false
      nagCount := 7
      emotionalContext := some "Celebrating"
      isExample := true },
    { id := "sample-3"
      item := "Monthly Subway Pass"
      amount := 127.50
      category := "Transportation"
      status := TransactionStatus.Approved
      date := dYesterday
      isReturnable := false
      nagCount := 0
      isExample := true },
    { id := "sample-4"
      item := "Professional-Grade Camera Lens"
      amount := 1250
      category := "Shopping"
      status := TransactionStatus.Flagged
      date := dYesterday
      isReturnable := true
      returnBy := some dReturnBy
      nagCount := 2
      emotionalContext := some "Excited"
      isExample := true },
    { id := "sample-5"
      item := "Concert Tickets (Front Row)"
      amount := 450
      category := "Dining & Entertainment"
      status := TransactionStatus.Pending
      date := dToday
      isReturnable := true
      nagCount := 0
      emotionalContext := some "Peer Pressured"
      isExample := true } ]

/-- The part of the app state the lifecycle claims range over: the transaction
list and the active simulated call (the staged `callState.transaction`
snapshot, `none` when `callState.isActive` is false). -/
structure SystemState where
  transactions : List Transaction
  activeCall : Option Transaction
  deriving DecidableEq, Repr

/-- One `handleAddPurchase` run as a state transition: the new transaction is
prepended (App.tsx lines 336, 380, 408) and, on the unnecessary non-urge
path, a call is staged. -/
def addPurchaseStep (keywords : List String) (sub : Submission)
    (id date : String) (gateway : Except Unit AnalysisResult)
    (s : SystemState) : SystemState :=
  let r := handleAddPurchase keywords sub id date gateway
  { transactions := r.newTransaction :: s.transactions
    activeCall := r.stagedCall }

/-- One `handleQuickAction` run as a state transition. -/
def quickActionStep (keywords : List String) (transactionId : String)
    (decision : QuickDecision) (gateway : Except Unit AnalysisResult)
    (s : SystemState) : SystemState :=
  let r := handleQuickAction keywords s.transactions transactionId decision gateway
  { transactions := r.transactions, activeCall := r.stagedCall }

/-- One `handleStatusToggle` run as a state transition. -/
def toggleStep (transactionId : String) (s : SystemState) : SystemState :=
  { s with transactions := handleStatusToggle transactionId s.transactions }

/-- One scheduler `tick` (App.tsx lines 247-261) together with the `handleNag`
it may start (lines 219-245): the due transaction's `nextNagTimestamp` is
cleared first; on gateway success its `error` is cleared and a call is staged
with the found snapshot; on failure a fixed error message is recorded and no
call is staged.  `nagOk` is the outcome of the `generateNagAudio` call. -/
def tickStep (now : Nat) (nagOk : Bool) (s : SystemState) : SystemState :=
  match transactionToNag now s.transactions with
  | none => s
  | some dueTx =>
    let cleared := s.transactions.map fun t =>
      if t.id = dueTx.id then { t with nextNagTimestamp := none } else t
    if nagOk then
      { transactions := cleared.map fun t =>
          if t.id = dueTx.id then { t with error := none } else t
        activeCall := some dueTx }
    else
      { transactions := cleared.map fun t =>
          if t.id = dueTx.id then
            { t with error := some "Failed to generate follow-up call." }
          else t
        activeCall := none }

/-- One `handleCallResolve` run as a state transition; the active call is
dismissed (App.tsx line 574). -/
def resolveStep (callTx : Transaction) (decision : Decision) (now : Nat)
    (s : SystemState) : SystemState :=
  { transactions := handleCallResolve callTx decision now s.transactions
    activeCall := none }

/-- The states the app can reach: it starts on the seed data (App.tsx lines
158-166, first run), and every mutation of the transaction collection goes
through one of the handlers.  Modal gating from the UI is reflected in the
side conditions: while a call is active (full-screen `IncomingCall` modal,
App.tsx lines 844-851) only call resolution is possible, new ids are fresh
(`Date.now().toString()`), and the `buy` quick action is only offered on
transactions with status Urge (TransactionItem's `Bought It` button). -/
inductive Reachable : SystemState → Prop where
  | init (dLastWeek dFiveDaysAgo dYesterday dToday dReturnBy : String) :
      Reachable
        { transactions :=
            getSampleTransactions dLastWeek dFiveDaysAgo dYesterday dToday dReturnBy
          activeCall := none }
  | add {s : SystemState} (keywords : List String) (sub : Submission)
      (id date : String) (gateway : Except Unit AnalysisResult)
      (hcall : s.activeCall = none)
      (hfresh : ∀ t ∈ s.transactions, t.id ≠ id) :
      Reachable s → Reachable (addPurchaseStep keywords sub id date gateway s)
  | quick {s : SystemState} (keywords : List String) (transactionId : String)
      (decision : QuickDecision) (gateway : Except Unit AnalysisResult)
      (hcall : s.activeCall = none)
      (hurge : decision = QuickDecision.buy →
        ∀ t ∈ s.transactions, t.id = transactionId →
          t.status = TransactionStatus.Urge) :
      Reachable s → Reachable (quickActionStep keywords transactionId decision gateway s)
  | toggle {s : SystemState} (transactionId : String)
      (hcall : s.activeCall = none) :
      Reachable s → Reachable (toggleStep transactionId s)
  | tick {s : SystemState} (now : Nat) (nagOk : Bool)
      (hcall : s.activeCall = none) :
      Reachable s → Reachable (tickStep now nagOk s)
  | resolve {s : SystemState} (callTx : Transaction) (decision : Decision)
      (now : Nat) (hcall : s.activeCall = some callTx) :
      Reachable s → Reachable (resolveStep callTx decision now s)
  | reset {s : SystemState}
      (dLastWeek dFiveDaysAgo dYesterday dToday dReturnBy : String)
      (hcall : s.activeCall = none) :
      Reachable s →
      Reachable
        { transactions :=
            getSampleTransactions dLastWeek dFiveDaysAgo dYesterday dToday dReturnBy
          activeCall := none }

/-- The per-transaction lifecycle invariant: the nag count is capped at the
maximum; a transaction that reached the cap is Kept or (after a manual
toggle) Returned; Urge transactions carry no nag schedule; and terminal
transactions carry no nag schedule. -/
def txInv (t : Transaction) : Prop :=
  t.nagCount ≤ MAX_NAGS ∧
  (t.nagCount = MAX_NAGS →
    t.status = TransactionStatus.Kept ∨ t.status = TransactionStatus.Returned) ∧
  (t.status = TransactionStatus.Urge → t.nextNagTimestamp = none) ∧
  ((t.status = TransactionStatus.Returned ∨ t.status = TransactionStatus.Kept) →
    t.nextNagTimestamp = none)

/-- The system-wide invariant: every stored transaction satisfies `txInv`,
ids are pairwise distinct, and the transaction an active call points at has
room for one more nag. -/
def SysInv (s : SystemState) : Prop :=
  (∀ t ∈ s.transactions, txInv t) ∧
  (s.transactions.map Transaction.id).Nodup ∧
  (∀ ct, s.activeCall = some ct →
    ∀ t ∈ s.transactions, t.id = ct.id → t.nagCount ≤ 6)

/-- Mapping an id-preserving update across the store keeps the id list. -/
theorem map_ids_of_id_preserving (f : Transaction → Transaction)
    (hf : ∀ t, (f t).id = t.id) :
    ∀ l : List Transaction,
      (l.map f).map Transaction.id = l.map Transaction.id := by
  intro l
  induction l with
  | nil => rfl
  | cons a l ih => simp [ih, hf]

/-- With pairwise-distinct ids, two stored transactions with the same id are
the same transaction. -/
theorem eq_of_id_eq {l : List Transaction}
    (hnd : (l.map Transaction.id).Nodup) {u v : Transaction}
    (hu : u ∈ l) (hv : v ∈ l) (h : u.id = v.id) : u = v :=
  List.inj_on_of_nodup_map hnd hu hv h

/-- The seed states satisfy the invariant. -/
theorem sysInv_init (d1 d2 d3 d4 d5 : String) :
    SysInv { transactions := getSampleTransactions d1 d2 d3 d4 d5
             activeCall := none } := by
  refine ⟨?_, ?_, ?_⟩
  · intro t ht
    simp only [getSampleTransactions, SystemState.transactions,
      List.mem_cons, List.not_mem_nil, or_false] at ht
    rcases ht with h | h | h | h | h <;> subst h <;>
      simp [txInv, MAX_NAGS]
  · simp only [getSampleTransactions, SystemState.transactions, List.map_cons,
      List.map_nil]
    decide
  · intro ct hct
    simp at hct

/-- The created transaction carries the freshly assigned id. -/
theorem handleAddPurchase_id (kw : List String) (sub : Submission)
    (id date : String) (gw : Except Unit AnalysisResult) :
    (handleAddPurchase kw sub id date gw).newTransaction.id = id := by
  unfold handleAddPurchase
  rcases gw with u | r <;> dsimp only <;> split <;> rfl

/-- Every freshly created transaction satisfies the lifecycle invariant. -/
theorem txInv_handleAddPurchase (kw : List String) (sub : Submission)
    (id date : String) (gw : Except Unit AnalysisResult) :
    txInv (handleAddPurchase kw sub id date gw).newTransaction := by
  unfold handleAddPurchase
  rcases gw with u | r <;> dsimp only <;> split <;>
    simp [txInv, MAX_NAGS]

/-- When a call is staged at creation, the new transaction's nag count is
zero. -/
theorem handleAddPurchase_staged_nag (kw : List String) (sub : Submission)
    (id date : String) (gw : Except Unit AnalysisResult) :
    (handleAddPurchase kw sub id date gw).stagedCall = none ∨
      (handleAddPurchase kw sub id date gw).newTransaction.nagCount = 0 := by
  unfold handleAddPurchase
  rcases gw with u | r <;> dsimp only <;> split
  · exact Or.inl rfl
  · exact Or.inl rfl
  · exact Or.inl rfl
  · exact Or.inr rfl

/-- A call staged at creation points at the freshly assigned id. -/
theorem handleAddPurchase_staged_id (kw : List String) (sub : Submission)
    (id date : String) (gw : Except Unit AnalysisResult) (c : Transaction)
    (h : (handleAddPurchase kw sub id date gw).stagedCall = some c) :
    c.id = id := by
  unfold handleAddPurchase at h
  rcases gw with u | r <;> dsimp only at h <;> split at h <;> simp at h
  obtain ⟨-, h2⟩ := h
  subst h2
  rfl

/-- Adding a purchase preserves the system invariant. -/
theorem sysInv_add (kw : List String) (sub : Submission) (id date : String)
    (gw : Except Unit AnalysisResult) (s : SystemState)
    (hfresh : ∀ t ∈ s.transactions, t.id ≠ id)
    (hinv : SysInv s) : SysInv (addPurchaseStep kw sub id date gw s) := by
  obtain ⟨htx, hnd, _⟩ := hinv
  refine ⟨?_, ?_, ?_⟩
  · intro t ht
    simp only [addPurchaseStep, List.mem_cons] at ht
    rcases ht with h | h
    · subst h; exact txInv_handleAddPurchase kw sub id date gw
    · exact htx t h
  · simp only [addPurchaseStep, List.map_cons]
    refine List.nodup_cons.mpr ⟨?_, hnd⟩
    rw [handleAddPurchase_id]
    simp only [List.mem_map, not_exists]
    intro u
    rintro ⟨hu, hid⟩
    exact hfresh u hu hid
  · intro ct hct t ht hid
    simp only [addPurchaseStep] at hct ht
    have hcid : ct.id = id := handleAddPurchase_staged_id kw sub id date gw ct hct
    rcases List.mem_cons.mp ht with h | h
    · subst h
      rcases handleAddPurchase_staged_nag kw sub id date gw with hnone | hzero
      · rw [hnone] at hct
        cases hct
      · rw [hzero]
        omega
    · exfalso
      apply hfresh t h
      rw [hid, hcid]

/-- Helper fact: `updateTransactionStatus` keeps the stored ids. -/
theorem ids_updateTransactionStatus (id : String) (st : TransactionStatus)
    (txs : List Transaction) :
    (updateTransactionStatus id st txs).map Transaction.id =
      txs.map Transaction.id := by
  unfold updateTransactionStatus
  apply map_ids_of_id_preserving
  intro t
  dsimp only
  split
  · split <;> rfl
  · rfl

/-- Setting a terminal status through `updateTransactionStatus` keeps the
lifecycle invariant. -/
theorem txInv_updateTransactionStatus_terminal (id : String)
    (st : TransactionStatus)
    (hst : st = TransactionStatus.Returned ∨ st = TransactionStatus.Kept)
    (txs : List Transaction) (htx : ∀ t ∈ txs, txInv t) :
    ∀ t ∈ updateTransactionStatus id st txs, txInv t := by
  intro t ht
  unfold updateTransactionStatus at ht
  obtain ⟨u, hu, rfl⟩ := List.mem_map.mp ht
  by_cases h : u.id = id
  · simp only [h, if_pos, if_pos hst]
    exact ⟨(htx u hu).1, fun _ => hst.symm,
      fun _ => rfl, fun _ => rfl⟩
  · simp only [h, if_neg, if_false]
    exact htx u hu

/-- Setting Flagged through `updateTransactionStatus` on an Urge transaction
keeps the lifecycle invariant. -/
theorem txInv_updateTransactionStatus_flagged (id : String)
    (txs : List Transaction) (htx : ∀ t ∈ txs, txInv t)
    (hidstat : ∀ t ∈ txs, t.id = id → t.status = TransactionStatus.Urge) :
    ∀ t ∈ updateTransactionStatus id TransactionStatus.Flagged txs, txInv t := by
  intro t ht
  unfold updateTransactionStatus at ht
  obtain ⟨u, hu, rfl⟩ := List.mem_map.mp ht
  by_cases h : u.id = id
  · have hust := hidstat u hu h
    have huinv := htx u hu
    simp only [h, if_pos]
    rw [if_neg (by simp)]
    refine ⟨huinv.1, ?_, by simp, by simp⟩
    intro hc
    rcases huinv.2.1 hc with h' | h' <;> rw [hust] at h' <;> cases h'
  · simp only [h, if_neg, if_false]
    exact htx u hu

/-- Quick actions preserve the system invariant. -/
theorem sysInv_quick (kw : List String) (tid : String) (dec : QuickDecision)
    (gw : Except Unit AnalysisResult) (s : SystemState)
    (hurge : dec = QuickDecision.buy →
      ∀ t ∈ s.transactions, t.id = tid → t.status = TransactionStatus.Urge)
    (hinv : SysInv s) : SysInv (quickActionStep kw tid dec gw s) := by
  obtain ⟨htx, hnd, _⟩ := hinv
  rcases dec with _ | _ | _
  · refine ⟨?_, ?_, ?_⟩
    · intro t ht
      simp only [quickActionStep, handleQuickAction] at ht
      exact txInv_updateTransactionStatus_terminal tid _ (Or.inl rfl) _ htx t ht
    · simp only [quickActionStep, handleQuickAction]
      rw [ids_updateTransactionStatus]
      exact hnd
    · intro ct hct
      simp only [quickActionStep, handleQuickAction] at hct
      cases hct
  · refine ⟨?_, ?_, ?_⟩
    · intro t ht
      simp only [quickActionStep, handleQuickAction] at ht
      exact txInv_updateTransactionStatus_terminal tid _ (Or.inr rfl) _ htx t ht
    · simp only [quickActionStep, handleQuickAction]
      rw [ids_updateTransactionStatus]
      exact hnd
    · intro ct hct
      simp only [quickActionStep, handleQuickAction] at hct
      cases hct
  · have hustat := hurge rfl
    rcases hfind : s.transactions.find? (fun t => t.id = tid) with _ | tr
    · refine ⟨?_, ?_, ?_⟩ <;>
        simp only [quickActionStep, handleQuickAction, hfind]
      · exact htx
      · exact hnd
      · intro ct hct
        cases hct
    · have htr_mem : tr ∈ s.transactions := List.mem_of_find?_eq_some hfind
      have htr_id : tr.id = tid := by
        have := List.find?_some hfind
        simpa using this
      have htr_urge : tr.status = TransactionStatus.Urge :=
        hustat tr htr_mem htr_id
      have htr_nag : tr.nagCount ≤ 6 := by
        have h1 := (htx tr htr_mem).1
        have h7 := (htx tr htr_mem).2.1
        have hne : tr.nagCount ≠ MAX_NAGS := by
          intro hc
          rcases h7 hc with h' | h' <;> rw [htr_urge] at h' <;> cases h'
        simp only [MAX_NAGS] at h1 hne
        omega
      have htr_ts : tr.nextNagTimestamp = none :=
        (htx tr htr_mem).2.2.1 htr_urge
      by_cases hff :
          (isFastFoodPurchase kw tr.item tr.category && !tr.isReturnable) = true
      · refine ⟨?_, ?_, ?_⟩ <;>
          simp only [quickActionStep, handleQuickAction, hfind, hff, if_true,
            if_pos]
        · intro t ht
          obtain ⟨u, hu, rfl⟩ := List.mem_map.mp ht
          by_cases h : u.id = tid
          · have hueq : u = tr := eq_of_id_eq hnd hu htr_mem (by rw [h, htr_id])
            simp only [h, if_pos]
            refine ⟨le_refl _, fun _ => Or.inl rfl, by simp, ?_⟩
            intro _
            show u.nextNagTimestamp = none
            rw [hueq]
            exact htr_ts
          · simp only [h, if_neg, if_false]
            exact htx u hu
        · rw [map_ids_of_id_preserving _ (by intro t; split <;> rfl)]
          exact hnd
        · intro ct hct
          cases hct
      · rcases gw with u | r
        · refine ⟨?_, ?_, ?_⟩ <;>
            simp only [quickActionStep, handleQuickAction, hfind, hff,
              Bool.false_eq_true, if_false]
          · exact txInv_updateTransactionStatus_flagged tid _ htx
              (fun t ht hid => hustat t ht hid)
          · rw [ids_updateTransactionStatus]
            exact hnd
          · intro ct hct
            cases hct
        · refine ⟨?_, ?_, ?_⟩ <;>
            simp only [quickActionStep, handleQuickAction, hfind, hff,
              Bool.false_eq_true, if_false]
          · intro t ht
            obtain ⟨u, hu, rfl⟩ := List.mem_map.mp ht
            by_cases h : u.id = tid
            · have hueq : u = tr := eq_of_id_eq hnd hu htr_mem (by rw [h, htr_id])
              simp only [h, if_pos]
              have hts : u.nextNagTimestamp = none := by rw [hueq]; exact htr_ts
              refine ⟨(htx u hu).1, ?_, fun _ => hts, fun _ => hts⟩
              intro hc
              exfalso
              have : u.nagCount ≤ 6 := by rw [hueq]; exact htr_nag
              simp only [MAX_NAGS] at hc
              omega
            · simp only [h, if_neg, if_false]
              exact htx u hu
          · rw [map_ids_of_id_preserving _ (by intro t; split <;> rfl)]
            exact hnd
          · intro ct hct
            split at hct
            · cases hct
              intro t ht hid
              obtain ⟨u, hu, rfl⟩ := List.mem_map.mp ht
              by_cases h : u.id = tid
              · have hueq : u = tr := eq_of_id_eq hnd hu htr_mem (by rw [h, htr_id])
                simp only [h, if_pos]
                show u.nagCount ≤ 6
                rw [hueq]
                exact htr_nag
              · exfalso
                rw [if_neg h] at hid
                have hid' : u.id = tr.id := hid
                exact h (hid'.trans htr_id)
            · cases hct

/-- The manual Kept/Returned toggle preserves the system invariant. -/
theorem sysInv_toggle (tid : String) (s : SystemState)
    (hcall : s.activeCall = none) (hinv : SysInv s) :
    SysInv (toggleStep tid s) := by
  obtain ⟨htx, hnd, hcallinv⟩ := hinv
  refine ⟨?_, ?_, ?_⟩
  · intro t ht
    simp only [toggleStep, handleStatusToggle] at ht
    obtain ⟨u, hu, rfl⟩ := List.mem_map.mp ht
    have huinv := htx u hu
    by_cases h : u.id = tid
    · simp only [h, if_pos]
      by_cases hk : u.status = TransactionStatus.Kept
      · simp only [hk, if_pos]
        exact ⟨huinv.1, fun _ => Or.inr rfl, by simp,
          fun _ => huinv.2.2.2 (Or.inr hk)⟩
      · simp only [hk, if_neg, if_false]
        by_cases hr : u.status = TransactionStatus.Returned
        · simp only [hr, if_pos]
          exact ⟨huinv.1, fun _ => Or.inl rfl, by simp,
            fun _ => huinv.2.2.2 (Or.inl hr)⟩
        · simp only [hr, if_neg, if_false]
          exact huinv
    · simp only [h, if_neg, if_false]
      exact huinv
  · simp only [toggleStep, handleStatusToggle]
    rw [map_ids_of_id_preserving]
    · exact hnd
    · intro t
      split
      · split
        · rfl
        · split <;> rfl
      · rfl
  · intro c hc
    simp only [toggleStep, hcall] at hc
    cases hc

/-- The scheduler tick preserves the system invariant. -/
theorem sysInv_tick (now : Nat) (nagOk : Bool) (s : SystemState)
    (hinv : SysInv s) : SysInv (tickStep now nagOk s) := by
  obtain ⟨htx, hnd, hcallinv⟩ := hinv
  rcases hfind : transactionToNag now s.transactions with _ | dueTx
  · simp only [tickStep, hfind]
    exact ⟨htx, hnd, hcallinv⟩
  · have hdue_mem : dueTx ∈ s.transactions := List.mem_of_find?_eq_some hfind
    have hdue : dueForNag now dueTx = true := List.find?_some hfind
    have hdue_ts : dueTx.nextNagTimestamp ≠ none := by
      unfold dueForNag at hdue
      rcases h : dueTx.nextNagTimestamp with _ | ts
      · rw [h] at hdue
        cases hdue
      · simp [h]
    have hdue_nag : dueTx.nagCount ≤ 6 := by
      have h1 := (htx dueTx hdue_mem).1
      have h7 := (htx dueTx hdue_mem).2.1
      have hterm := (htx dueTx hdue_mem).2.2.2
      have hne : dueTx.nagCount ≠ MAX_NAGS := by
        intro hc
        exact hdue_ts (hterm (h7 hc).symm)
      simp only [MAX_NAGS] at h1 hne
      omega
    rcases nagOk with _ | _ <;>
      simp only [tickStep, hfind, Bool.false_eq_true, if_false, if_true] <;>
      refine ⟨?_, ?_, ?_⟩
    · intro t ht
      obtain ⟨v, hv, rfl⟩ := List.mem_map.mp ht
      obtain ⟨u, hu, rfl⟩ := List.mem_map.mp hv
      by_cases h : u.id = dueTx.id
      · rw [if_pos h, if_pos (show ({u with nextNagTimestamp := none} :
          Transaction).id = dueTx.id from h)]
        exact ⟨(htx u hu).1, (htx u hu).2.1, fun _ => rfl, fun _ => rfl⟩
      · rw [if_neg h, if_neg (show ¬(u.id = dueTx.id) from h)]
        exact htx u hu
    · rw [map_ids_of_id_preserving _ (by intro t; split <;> rfl),
        map_ids_of_id_preserving _ (by intro t; split <;> rfl)]
      exact hnd
    · intro c hc
      cases hc
    · intro t ht
      obtain ⟨v, hv, rfl⟩ := List.mem_map.mp ht
      obtain ⟨u, hu, rfl⟩ := List.mem_map.mp hv
      by_cases h : u.id = dueTx.id
      · rw [if_pos h, if_pos (show ({u with nextNagTimestamp := none} :
          Transaction).id = dueTx.id from h)]
        exact ⟨(htx u hu).1, (htx u hu).2.1, fun _ => rfl, fun _ => rfl⟩
      · rw [if_neg h, if_neg (show ¬(u.id = dueTx.id) from h)]
        exact htx u hu
    · rw [map_ids_of_id_preserving _ (by intro t; split <;> rfl),
        map_ids_of_id_preserving _ (by intro t; split <;> rfl)]
      exact hnd
    · intro c hc t ht hid
      cases hc
      obtain ⟨v, hv, rfl⟩ := List.mem_map.mp ht
      obtain ⟨u, hu, rfl⟩ := List.mem_map.mp hv
      by_cases h : u.id = dueTx.id
      · have hueq : u = dueTx := eq_of_id_eq hnd hu hdue_mem h
        rw [if_pos h, if_pos (show ({u with nextNagTimestamp := none} :
          Transaction).id = dueTx.id from h)]
        show u.nagCount ≤ 6
        rw [hueq]
        exact hdue_nag
      · exfalso
        rw [if_neg h, if_neg (show ¬(u.id = dueTx.id) from h)] at hid
        exact h hid

/-- A transaction with room for one more nag keeps the lifecycle invariant
through call resolution. -/
theorem txInv_resolveTransaction (amount : Rat) (ret : Bool)
    (dec : Decision) (now : Nat) (t : Transaction)
    (h6 : t.nagCount ≤ 6) (ht : txInv t) :
    txInv (resolveTransaction amount ret dec now t) := by
  rcases dec with _ | _
  · exact ⟨ht.1, fun _ => Or.inr rfl, fun _ => rfl, fun _ => rfl⟩
  · simp only [resolveTransaction]
    split
    · split
      · refine ⟨by simp [MAX_NAGS], ?_, by simp, by simp⟩
        intro hc
        simp only [MAX_NAGS] at hc
        omega
      · split
        · refine ⟨?_, fun _ => Or.inl rfl, by simp, fun _ => rfl⟩
          simp only [MAX_NAGS]
          omega
        · rename_i hlt
          simp only [MAX_NAGS] at hlt
          refine ⟨by simp only [MAX_NAGS]; omega, ?_, by simp, by simp⟩
          intro hc
          simp only [MAX_NAGS] at hc
          omega
    · refine ⟨ht.1, ?_, by simp, by simp⟩
      intro hc
      simp only [MAX_NAGS] at hc
      omega

/-- Call resolution keeps the matched transaction's id. -/
theorem resolveTransaction_id (amount : Rat) (ret : Bool) (dec : Decision)
    (now : Nat) (t : Transaction) :
    (resolveTransaction amount ret dec now t).id = t.id := by
  rcases dec with _ | _
  · rfl
  · simp only [resolveTransaction]
    split
    · split
      · rfl
      · split <;> rfl
    · rfl

/-- Call resolution preserves the system invariant. -/
theorem sysInv_resolve (ct : Transaction) (dec : Decision) (now : Nat)
    (s : SystemState) (hcall : s.activeCall = some ct) (hinv : SysInv s) :
    SysInv (resolveStep ct dec now s) := by
  obtain ⟨htx, hnd, hcallinv⟩ := hinv
  have h6 := hcallinv ct hcall
  refine ⟨?_, ?_, ?_⟩
  · intro t ht
    simp only [resolveStep, handleCallResolve] at ht
    obtain ⟨u, hu, rfl⟩ := List.mem_map.mp ht
    by_cases h : u.id = ct.id
    · simp only [h, if_pos]
      exact txInv_resolveTransaction _ _ _ _ u (h6 u hu h) (htx u hu)
    · simp only [h, if_neg, if_false]
      exact htx u hu
  · simp only [resolveStep, handleCallResolve]
    rw [map_ids_of_id_preserving]
    · exact hnd
    · intro t
      split
      · exact resolveTransaction_id ct.amount ct.isReturnable dec now t
      · rfl
  · intro c hc
    cases hc

/-- Every reachable state satisfies the system invariant. -/
theorem sysInv_reachable {s : SystemState} (h : Reachable s) : SysInv s := by
  induction h with
  | init d1 d2 d3 d4 d5 => exact sysInv_init d1 d2 d3 d4 d5
  | add kw sub id date gw hcall hfresh _ ih =>
    exact sysInv_add kw sub id date gw _ hfresh ih
  | quick kw tid dec gw hcall hurge _ ih =>
    exact sysInv_quick kw tid dec gw _ hurge ih
  | toggle tid hcall _ ih => exact sysInv_toggle tid _ hcall ih
  | tick now nagOk hcall _ ih => exact sysInv_tick now nagOk _ ih
  | resolve ct dec now hcall _ ih => exact sysInv_resolve ct dec now _ hcall ih
  | reset d1 d2 d3 d4 d5 hcall _ ih => exact sysInv_init d1 d2 d3 d4 d5

/-- C1: a submission whose item or category indicates fast food, marked
non-returnable and not an urge, yields a transaction created directly in
Kept with the maximal nag count (7), with no analysis-gateway call performed
and no call staged. -/
theorem fastfood_shortcircuit_spec (kw : List String) (sub : Submission)
    (id date : String) (gw : Except Unit AnalysisResult)
    (hff : isFastFoodPurchase kw sub.item sub.category = true)
    (hret : sub.isReturnable = false)
    (hurge : sub.isUrge = false) :
    (handleAddPurchase kw sub id date gw).newTransaction.status =
        TransactionStatus.Kept ∧
      (handleAddPurchase kw sub id date gw).newTransaction.nagCount = 7 ∧
      (handleAddPurchase kw sub id date gw).gatewayCalls = 0 ∧
      (handleAddPurchase kw sub id date gw).stagedCall = none := by
  unfold handleAddPurchase
  rw [if_pos (by rw [hff, hret, hurge]; rfl)]
  exact ⟨rfl, rfl, rfl, rfl⟩

/-- C1 witness: a concrete fast-food submission (keyword match on the item
name) hits the short-circuit. -/
theorem fastfood_shortcircuit_spec_witness :
    (handleAddPurchase ["mcdouble"]
        { item := "McDouble", amount := 12, category := "Dining & Entertainment",
          isReturnable := false, isUrge := false }
        "id-1" "2026-10-12" (Except.error ())).newTransaction.status =
        TransactionStatus.Kept ∧
      (handleAddPurchase ["mcdouble"]
        { item := "McDouble", amount := 12, category := "Dining & Entertainment",
          isReturnable := false, isUrge := false }
        "id-1" "2026-10-12" (Except.error ())).newTransaction.nagCount = 7 ∧
      (handleAddPurchase ["mcdouble"]
        { item := "McDouble", amount := 12, category := "Dining & Entertainment",
          isReturnable := false, isUrge := false }
        "id-1" "2026-10-12" (Except.error ())).gatewayCalls = 0 ∧
      (handleAddPurchase ["mcdouble"]
        { item := "McDouble", amount := 12, category := "Dining & Entertainment",
          isReturnable := false, isUrge := false }
        "id-1" "2026-10-12" (Except.error ())).stagedCall = none :=
  fastfood_shortcircuit_spec ["mcdouble"]
    { item := "McDouble", amount := 12, category := "Dining & Entertainment",
      isReturnable := false, isUrge := false }
    "id-1" "2026-10-12" (Except.error ()) (by decide) rfl rfl

/-- C2: resolving a call with `keep` on a returnable purchase above 250
escalates: a first flag sets nagCount to 1 and schedules one interval out;
otherwise the count is incremented, reaching the maximum (7) forces Kept and
clears the schedule, and below the maximum it reschedules; an amount not
above 250 or a non-returnable item just flags, leaving nagCount and the
schedule untouched. -/
theorem callResolve_keep_escalation (amount : Rat) (ret : Bool) (now : Nat)
    (t : Transaction) :
    (amount > 250 → ret = true → t.nagCount = 0 →
      (resolveTransaction amount ret Decision.keep now t).nagCount = 1 ∧
      (resolveTransaction amount ret Decision.keep now t).status =
        TransactionStatus.Flagged ∧
      (resolveTransaction amount ret Decision.keep now t).nextNagTimestamp =
        some (now + NAG_INTERVAL_MS)) ∧
    (amount > 250 → ret = true → t.nagCount ≠ 0 → t.nagCount + 1 ≥ MAX_NAGS →
      (resolveTransaction amount ret Decision.keep now t).nagCount = t.nagCount + 1 ∧
      (resolveTransaction amount ret Decision.keep now t).status =
        TransactionStatus.Kept ∧
      (resolveTransaction amount ret Decision.keep now t).nextNagTimestamp = none) ∧
    (amount > 250 → ret = true → t.nagCount ≠ 0 → t.nagCount + 1 < MAX_NAGS →
      (resolveTransaction amount ret Decision.keep now t).nagCount = t.nagCount + 1 ∧
      (resolveTransaction amount ret Decision.keep now t).status =
        TransactionStatus.Flagged ∧
      (resolveTransaction amount ret Decision.keep now t).nextNagTimestamp =
        some (now + NAG_INTERVAL_MS)) ∧
    (¬(amount > 250 ∧ ret = true) →
      (resolveTransaction amount ret Decision.keep now t).status =
        TransactionStatus.Flagged ∧
      (resolveTransaction amount ret Decision.keep now t).nagCount = t.nagCount ∧
      (resolveTransaction amount ret Decision.keep now t).nextNagTimestamp =
        t.nextNagTimestamp) := by
  refine ⟨?_, ?_, ?_, ?_⟩
  · intro h1 h2 h3
    simp only [resolveTransaction]
    rw [if_pos ⟨h1, h2⟩, if_pos h3]
    exact ⟨rfl, rfl, rfl⟩
  · intro h1 h2 h3 h4
    simp only [resolveTransaction]
    rw [if_pos ⟨h1, h2⟩, if_neg h3, if_pos h4]
    exact ⟨rfl, rfl, rfl⟩
  · intro h1 h2 h3 h4
    simp only [resolveTransaction]
    rw [if_pos ⟨h1, h2⟩, if_neg h3, if_neg (Nat.not_le.mpr h4)]
    exact ⟨rfl, rfl, rfl⟩
  · intro h
    simp only [resolveTransaction]
    rw [if_neg h]
    exact ⟨rfl, rfl, rfl⟩

/-- C2 witness: the spec's own test vector — keep at amount 300, returnable,
nagCount 0. -/
theorem callResolve_keep_escalation_witness :
    (resolveTransaction 300 true Decision.keep 5000
        { id := "tx-2", item := "Espresso machine", amount := 300,
          category := "Shopping", status := TransactionStatus.Pending,
          date := "2026-10-01", isReturnable := true, nagCount := 0 }).nagCount = 1 ∧
      (resolveTransaction 300 true Decision.keep 5000
        { id := "tx-2", item := "Espresso machine", amount := 300,
          category := "Shopping", status := TransactionStatus.Pending,
          date := "2026-10-01", isReturnable := true, nagCount := 0 }).status =
        TransactionStatus.Flagged ∧
      (resolveTransaction 300 true Decision.keep 5000
        { id := "tx-2", item := "Espresso machine", amount := 300,
          category := "Shopping", status := TransactionStatus.Pending,
          date := "2026-10-01", isReturnable := true, nagCount := 0 }).nextNagTimestamp =
        some (5000 + NAG_INTERVAL_MS) :=
  (callResolve_keep_escalation 300 true 5000
    { id := "tx-2", item := "Espresso machine", amount := 300,
      category := "Shopping", status := TransactionStatus.Pending,
      date := "2026-10-01", isReturnable := true, nagCount := 0 }).1
    (by norm_num) rfl rfl

/-- C6: an urge submission always produces an Urge transaction, stages no
call whatever the verdict, and on gateway success stores the AI's hot take
on the transaction. -/
theorem urge_submission_no_call (kw : List String) (sub : Submission)
    (id date : String) (gw : Except Unit AnalysisResult)
    (hurge : sub.isUrge = true) :
    (handleAddPurchase kw sub id date gw).newTransaction.status =
        TransactionStatus.Urge ∧
      (handleAddPurchase kw sub id date gw).stagedCall = none ∧
      (∀ r, gw = Except.ok r →
        (handleAddPurchase kw sub id date gw).newTransaction.hotTake =
          r.analysis.hotTake) := by
  unfold handleAddPurchase
  rw [if_neg (by simp [hurge])]
  rcases gw with u | r
  · exact ⟨by simp [hurge], rfl, fun r h => by cases h⟩
  · refine ⟨by simp [hurge], by simp [hurge], fun r' h => ?_⟩
    cases h
    rfl

/-- A concrete unnecessary verdict with a hot take, for the urge witness. -/
def hotTakeVerdict : AnalysisResult where
  analysis :=
    { isNecessary := false
      reasoning := "r"
      callScript := "s"
      hotTake := some "Really?" }
  audioUrl := "a"

/-- C6 witness: an urge deemed unnecessary, with a hot take, still comes out
as Urge with no staged call. -/
theorem urge_submission_no_call_witness :
    (handleAddPurchase []
        { item := "Neon sign", amount := 180, category := "Shopping",
          isReturnable := true, isUrge := true }
        "id-6" "2026-10-12"
        (Except.ok hotTakeVerdict)).newTransaction.status = TransactionStatus.Urge ∧
      (handleAddPurchase []
        { item := "Neon sign", amount := 180, category := "Shopping",
          isReturnable := true, isUrge := true }
        "id-6" "2026-10-12"
        (Except.ok hotTakeVerdict)).stagedCall = none ∧
      (∀ r, (Except.ok hotTakeVerdict : Except Unit AnalysisResult) = Except.ok r →
        (handleAddPurchase []
          { item := "Neon sign", amount := 180, category := "Shopping",
            isReturnable := true, isUrge := true }
          "id-6" "2026-10-12"
          (Except.ok hotTakeVerdict)).newTransaction.hotTake = r.analysis.hotTake) :=
  urge_submission_no_call []
    { item := "Neon sign", amount := 180, category := "Shopping",
      isReturnable := true, isUrge := true }
    "id-6" "2026-10-12"
    (Except.ok hotTakeVerdict) rfl

/-- C7: when the gateway fails and the fast-food short-circuit did not apply,
the transaction is still recorded — Flagged (or Urge for urges) — with the
fixed failure message stored in `error`, and no call is staged. -/
theorem gateway_failure_flagged (kw : List String) (sub : Submission)
    (id date : String)
    (hnoff : (isFastFoodPurchase kw sub.item sub.category
      && !sub.isReturnable && !sub.isUrge) = false) :
    (handleAddPurchase kw sub id date (Except.error ())).newTransaction.status =
        (if sub.isUrge then TransactionStatus.Urge else TransactionStatus.Flagged) ∧
      (handleAddPurchase kw sub id date (Except.error ())).newTransaction.error =
        some "Analysis failed." ∧
      (handleAddPurchase kw sub id date (Except.error ())).stagedCall = none := by
  unfold handleAddPurchase
  rw [if_neg (by simp [hnoff])]
  exact ⟨rfl, rfl, rfl⟩

/-- C7 witness: a failed analysis of an ordinary returnable purchase. -/
theorem gateway_failure_flagged_witness :
    (handleAddPurchase []
        { item := "Standing desk", amount := 600, category := "Shopping",
          isReturnable := true, isUrge := false }
        "id-7" "2026-10-12" (Except.error ())).newTransaction.status =
        (if (false : Bool) then TransactionStatus.Urge else TransactionStatus.Flagged) ∧
      (handleAddPurchase []
        { item := "Standing desk", amount := 600, category := "Shopping",
          isReturnable := true, isUrge := false }
        "id-7" "2026-10-12" (Except.error ())).newTransaction.error =
        some "Analysis failed." ∧
      (handleAddPurchase []
        { item := "Standing desk", amount := 600, category := "Shopping",
          isReturnable := true, isUrge := false }
        "id-7" "2026-10-12" (Except.error ())).stagedCall = none :=
  gateway_failure_flagged []
    { item := "Standing desk", amount := 600, category := "Shopping",
      isReturnable := true, isUrge := false }
    "id-7" "2026-10-12" (by decide)

/-- Sum of amounts, the specification-side view of the `reduce` calls. -/
def sumAmounts (txs : List Transaction) : Rat :=
  (txs.map Transaction.amount).sum

/-- The `reduce((sum, t) => sum + t.amount, a)` folds compute `a` plus the
sum of the amounts. -/
theorem foldl_amount (txs : List Transaction) (a : Rat) :
    txs.foldl (fun sum t => sum + t.amount) a = a + sumAmounts txs := by
  induction txs generalizing a with
  | nil => simp [sumAmounts]
  | cons x l ih =>
    simp only [List.foldl_cons, ih, sumAmounts, List.map_cons, List.sum_cons]
    ring

/-- C8: with at least one non-example transaction, the displayed total saved
is the sum of amounts over returned non-example transactions; with none, it
is the sum over returned example transactions. -/
theorem displayedTotalSaved_spec (txs : List Transaction) :
    (hasRealTransactions txs = true →
      displayedTotalSaved txs =
        sumAmounts (txs.filter fun t =>
          t.status = TransactionStatus.Returned && !t.isExample)) ∧
    (hasRealTransactions txs = false →
      displayedTotalSaved txs =
        sumAmounts (txs.filter fun t =>
          t.status = TransactionStatus.Returned && t.isExample)) := by
  constructor <;> intro h <;>
    simp only [displayedTotalSaved, totalSaved, realReturnedTransactionsForStats,
      h, if_true, if_false, Bool.false_eq_true] <;>
    rw [foldl_amount, zero_add]

/-- C8 witness: one real returned transaction hides the examples; the pure
seed set falls back to example totals. -/
theorem displayedTotalSaved_spec_witness :
    (displayedTotalSaved
        ({ id := "r1", item := "Rug", amount := 50, category := "Shopping",
           status := TransactionStatus.Returned, date := "2026-10-10",
           isReturnable := true, nagCount := 0 } ::
          getSampleTransactions "a" "b" "c" "d" "e") =
      sumAmounts
        (({ id := "r1", item := "Rug", amount := 50, category := "Shopping",
            status := TransactionStatus.Returned, date := "2026-10-10",
            isReturnable := true, nagCount := 0 } ::
           getSampleTransactions "a" "b" "c" "d" "e").filter fun t =>
          t.status = TransactionStatus.Returned && !t.isExample)) ∧
    (displayedTotalSaved (getSampleTransactions "a" "b" "c" "d" "e") =
      sumAmounts ((getSampleTransactions "a" "b" "c" "d" "e").filter fun t =>
        t.status = TransactionStatus.Returned && t.isExample)) :=
  ⟨(displayedTotalSaved_spec
      ({ id := "r1", item := "Rug", amount := 50, category := "Shopping",
         status := TransactionStatus.Returned, date := "2026-10-10",
         isReturnable := true, nagCount := 0 } ::
        getSampleTransactions "a" "b" "c" "d" "e")).1 (by simp [hasRealTransactions]),
   (displayedTotalSaved_spec (getSampleTransactions "a" "b" "c" "d" "e")).2
     (by simp [hasRealTransactions, getSampleTransactions])⟩

/-- C9: the goal-fund allocation is exactly 40% of the total saved, the bank
refund passed to `GoalProgress` is exactly 60% of the total returned value
(App.tsx passes the total saved as the total returned), and the two parts sum
back to the total saved. -/
theorem goal_bank_split (txs : List Transaction) :
    goalSaved txs = (40 / 100 : Rat) * totalSaved txs ∧
    bankRefund (totalSaved txs) = (60 / 100 : Rat) * totalSaved txs ∧
    goalSaved txs + bankRefund (totalSaved txs) = totalSaved txs := by
  refine ⟨?_, ?_, ?_⟩ <;>
    simp only [goalSaved, bankRefund] <;>
    norm_num <;>
    ring

/-- A fresh-install state: the seed transactions, no call active. -/
def seedState : SystemState where
  transactions :=
    getSampleTransactions "2026-10-05" "2026-10-07" "2026-10-11" "2026-10-12"
      "2026-11-01"
  activeCall := none

/-- An urge submission for a non-returnable fast-food item. -/
def ffUrgeSub : Submission where
  item := "Triple cheeseburger"
  amount := 9
  category := "Fast Food"
  isReturnable := false
  isUrge := true

/-- State after logging `ffUrgeSub` while the gateway fails: an Urge
transaction with its error field set. -/
def errUrgeState : SystemState :=
  addPurchaseStep [] ffUrgeSub "1001" "2026-10-12" (Except.error ()) seedState

/-- State after pressing "Bought It" on that urge: the fast-food trap fires. -/
def boughtUrgeState : SystemState :=
  quickActionStep [] "1001" QuickDecision.buy (Except.error ()) errUrgeState

/-- The transaction `boughtUrgeState` holds at the head of the store. -/
def boughtUrgeTx : Transaction where
  id := "1001"
  item := "Triple cheeseburger"
  amount := 9
  category := "Fast Food"
  status := TransactionStatus.Kept
  date := "2026-10-12"
  isReturnable := false
  nagCount := 7
  error := some "Analysis failed."

/-- C3 counterexample: a reachable Kept transaction whose `error` field is
still set — gateway failure on an urge, then the fast-food "Bought It" trap,
which moves the transaction to Kept without clearing `error`. -/
theorem kept_with_error_reachable :
    Reachable boughtUrgeState ∧
    boughtUrgeState.transactions.head? = some boughtUrgeTx ∧
    boughtUrgeTx.status = TransactionStatus.Kept ∧
    boughtUrgeTx.error = some "Analysis failed." := by
  refine ⟨?_, by decide, rfl, rfl⟩
  exact Reachable.quick [] "1001" QuickDecision.buy (Except.error ()) (by decide)
    (by intro _; decide)
    (Reachable.add [] ffUrgeSub "1001" "2026-10-12" (Except.error ()) rfl
      (by decide)
      (Reachable.init "2026-10-05" "2026-10-07" "2026-10-11" "2026-10-12"
        "2026-11-01"))

/-- C3 amended: every reachable transaction with a terminal status (Returned
or Kept) has `nextNagTimestamp` unset; `error`, however, is only guaranteed
to be cleared by the `updateTransactionStatus` transitions, not by call
resolution or the fast-food buy promotion. -/
theorem terminal_status_clears_schedule {s : SystemState} (h : Reachable s) :
    ∀ t ∈ s.transactions,
      t.status = TransactionStatus.Returned ∨ t.status = TransactionStatus.Kept →
      t.nextNagTimestamp = none := by
  intro t ht hst
  exact ((sysInv_reachable h).1 t ht).2.2.2 hst

/-- The seed set's returned sample transaction. -/
def sampleReturnedTx : Transaction where
  id := "sample-1"
  item := "Vintage Leather Jacket"
  amount := 375
  category := "Shopping"
  status := TransactionStatus.Returned
  date := "2026-10-05"
  isReturnable := true
  nagCount := 0
  emotionalContext := some "Neutral / Normal"
  isExample := true

/-- C3 amended, witness: the returned seed transaction carries no schedule. -/
theorem terminal_status_clears_schedule_witness :
    sampleReturnedTx.nextNagTimestamp = none :=
  terminal_status_clears_schedule
    (Reachable.init "2026-10-05" "2026-10-07" "2026-10-11" "2026-10-12"
      "2026-11-01")
    sampleReturnedTx (by decide) (Or.inl rfl)

/-- A non-urge submission for a non-returnable fast-food item. -/
def ffKeptSub : Submission where
  item := "Family bucket"
  amount := 25
  category := "Fast Food"
  isReturnable := false
  isUrge := false

/-- State after the fast-food short-circuit creates a Kept max-shame
transaction. -/
def ffKeptState : SystemState :=
  addPurchaseStep [] ffKeptSub "2001" "2026-10-12" (Except.error ()) seedState

/-- State after manually toggling that transaction from Kept to Returned. -/
def ffToggledState : SystemState := toggleStep "2001" ffKeptState

/-- The transaction `ffToggledState` holds at the head of the store. -/
def ffToggledTx : Transaction where
  id := "2001"
  item := "Family bucket"
  amount := 25
  category := "Fast Food"
  status := TransactionStatus.Returned
  date := "2026-10-12"
  isReturnable := false
  nagCount := 7

/-- C4 counterexample: a reachable transaction with nagCount = 7 whose status
is Returned, not Kept — the fast-food short-circuit creates Kept with the
maximal count, and the manual status toggle then flips it to Returned without
touching nagCount. -/
theorem maxNag_returned_reachable :
    Reachable ffToggledState ∧
    ffToggledState.transactions.head? = some ffToggledTx ∧
    ffToggledTx.nagCount = 7 ∧
    ffToggledTx.status = TransactionStatus.Returned ∧
    ffToggledTx.status ≠ TransactionStatus.Kept := by
  refine ⟨?_, by decide, rfl, rfl, by decide⟩
  exact Reachable.toggle "2001" (by decide)
    (Reachable.add [] ffKeptSub "2001" "2026-10-12" (Except.error ()) rfl
      (by decide)
      (Reachable.init "2026-10-05" "2026-10-07" "2026-10-11" "2026-10-12"
        "2026-11-01"))

/-- C4 amended: every reachable transaction has nagCount between 0 and 7, and
nagCount = 7 implies the status is Kept or (after a manual toggle) Returned
and `nextNagTimestamp` is unset; no operation ever raises nagCount above 7. -/
theorem nagCount_bounds {s : SystemState} (h : Reachable s) :
    ∀ t ∈ s.transactions,
      t.nagCount ≤ 7 ∧
      (t.nagCount = 7 →
        (t.status = TransactionStatus.Kept ∨
          t.status = TransactionStatus.Returned) ∧
        t.nextNagTimestamp = none) := by
  intro t ht
  have hi := (sysInv_reachable h).1 t ht
  refine ⟨hi.1, fun hc => ⟨hi.2.1 hc, ?_⟩⟩
  rcases hi.2.1 hc with h' | h'
  · exact hi.2.2.2 (Or.inr h')
  · exact hi.2.2.2 (Or.inl h')

/-- The seed set's Kept sample transaction, at the nag cap. -/
def sampleKeptTx : Transaction where
  id := "sample-2"
  item := "Seven-Course Tasting Menu"
  amount := 220
  category := "Dining & Entertainment"
  status := TransactionStatus.Kept
  date := "2026-10-07"
  isReturnable := false
  nagCount := 7
  emotionalContext := some "Celebrating"
  isExample := true

/-- C4 amended, witness: the Kept seed transaction sits at the cap with no
schedule. -/
theorem nagCount_bounds_witness :
    sampleKeptTx.nagCount ≤ 7 ∧
    (sampleKeptTx.nagCount = 7 →
      (sampleKeptTx.status = TransactionStatus.Kept ∨
        sampleKeptTx.status = TransactionStatus.Returned) ∧
      sampleKeptTx.nextNagTimestamp = none) :=
  nagCount_bounds
    (Reachable.init "2026-10-05" "2026-10-07" "2026-10-11" "2026-10-12"
      "2026-11-01")
    sampleKeptTx (by decide)

/-- A gateway verdict that deems the purchase unnecessary (no hot take). -/
def unnecessaryVerdict : Except Unit AnalysisResult :=
  Except.ok
    { analysis :=
        { isNecessary := false
          reasoning := "r"
          callScript := "s" }
      audioUrl := "a" }

/-- First significant purchase for the scheduler scenario. -/
def p1Sub : Submission where
  item := "Telescope"
  amount := 300
  category := "Shopping"
  isReturnable := true

/-- Second significant purchase for the scheduler scenario. -/
def p2Sub : Submission where
  item := "Kayak"
  amount := 400
  category := "Shopping"
  isReturnable := true

/-- The call snapshot staged when `p1Sub` is logged. -/
def p1Call : Transaction :=
  (handleAddPurchase [] p1Sub "3001" "2026-10-12" unnecessaryVerdict).newTransaction

/-- The call snapshot staged when `p2Sub` is logged. -/
def p2Call : Transaction :=
  (handleAddPurchase [] p2Sub "3002" "2026-10-12" unnecessaryVerdict).newTransaction

/-- Scenario: log `p1Sub`, keep it at time 1000 (nag due 21000), log `p2Sub`,
keep it at time 2000 (nag due 22000). -/
def twoDueState : SystemState :=
  resolveStep p2Call Decision.keep 2000
    (addPurchaseStep [] p2Sub "3002" "2026-10-12" unnecessaryVerdict
      (resolveStep p1Call Decision.keep 1000
        (addPurchaseStep [] p1Sub "3001" "2026-10-12" unnecessaryVerdict
          seedState)))

/-- The first (earlier-scheduled) flagged transaction in `twoDueState`. -/
def p1Flagged : Transaction where
  id := "3001"
  item := "Telescope"
  amount := 300
  category := "Shopping"
  status := TransactionStatus.Flagged
  date := "2026-10-12"
  isReturnable := true
  nagCount := 1
  nextNagTimestamp := some 21000

/-- The second (later-scheduled, but list-first) flagged transaction in
`twoDueState`. -/
def p2Flagged : Transaction where
  id := "3002"
  item := "Kayak"
  amount := 400
  category := "Shopping"
  status := TransactionStatus.Flagged
  date := "2026-10-12"
  isReturnable := true
  nagCount := 1
  nextNagTimestamp := some 22000

/-- C5 counterexample: in a reachable state with two due follow-ups, the tick
selects the transaction that comes first in the list (the most recently
added), whose `nextNagTimestamp` (22000) is later than the other due
transaction's (21000) — not the earliest one. -/
theorem tick_ignores_earliest_reachable :
    Reachable twoDueState ∧
    transactionToNag 50000 twoDueState.transactions = some p2Flagged ∧
    p2Flagged.nextNagTimestamp = some 22000 ∧
    p1Flagged ∈ twoDueState.transactions ∧
    dueForNag 50000 p1Flagged = true ∧
    p1Flagged.nextNagTimestamp = some 21000 ∧
    p2Flagged ≠ p1Flagged := by
  refine ⟨?_, by decide, rfl, by decide, by decide, rfl, by decide⟩
  exact Reachable.resolve p2Call Decision.keep 2000 (by decide)
    (Reachable.add [] p2Sub "3002" "2026-10-12" unnecessaryVerdict (by decide)
      (by decide)
      (Reachable.resolve p1Call Decision.keep 1000 (by decide)
        (Reachable.add [] p1Sub "3001" "2026-10-12" unnecessaryVerdict rfl
          (by decide)
          (Reachable.init "2026-10-05" "2026-10-07" "2026-10-11" "2026-10-12"
            "2026-11-01"))))

/-- C5 amended: the tick selects the first transaction in list order whose
`nextNagTimestamp` is set and due — every transaction stored ahead of the
selected one fails the due test; the earliest timestamp is not consulted. -/
theorem tick_selects_first_due (now : Nat) (txs : List Transaction)
    (t : Transaction) (h : transactionToNag now txs = some t) :
    dueForNag now t = true ∧
    ∃ pre post, txs = pre ++ t :: post ∧
      ∀ u ∈ pre, dueForNag now u = false := by
  unfold transactionToNag at h
  induction txs with
  | nil => cases h
  | cons a l ih =>
    rcases hdue : dueForNag now a with _ | _
    · rw [List.find?_cons_of_neg _ (by simp [hdue])] at h
      obtain ⟨hd, pre, post, heq, hall⟩ := ih h
      refine ⟨hd, a :: pre, post, by rw [heq]; rfl, ?_⟩
      intro u hu
      rcases List.mem_cons.mp hu with h' | h'
      · rw [h']
        exact hdue
      · exact hall u h'
    · rw [List.find?_cons_of_pos _ hdue] at h
      cases h
      exact ⟨hdue, [], l, rfl, by intro u hu; cases hu⟩

/-- C5 amended, witness: in the two-due scenario the selected transaction is
due and everything stored ahead of it is not. -/
theorem tick_selects_first_due_witness :
    dueForNag 50000 p2Flagged = true ∧
    ∃ pre post, twoDueState.transactions = pre ++ p2Flagged :: post ∧
      ∀ u ∈ pre, dueForNag 50000 u = false :=
  tick_selects_first_due 50000 twoDueState.transactions p2Flagged (by decide)

/-- C10: the fast-food short-circuit at creation stores the transaction with
category forced to "Fast Food" and isReturnable forced to false, discarding
the submitted category; the fast-food trap during urge promotion instead
keeps the stored category and clears the hot take (while forcing Kept at the
maximal nag count). -/
theorem fastfood_rewrites_category (kw : List String) :
    (∀ (sub : Submission) (id date : String) (gw : Except Unit AnalysisResult),
      isFastFoodPurchase kw sub.item sub.category = true →
      sub.isReturnable = false → sub.isUrge = false →
      (handleAddPurchase kw sub id date gw).newTransaction.category =
          "Fast Food" ∧
        (handleAddPurchase kw sub id date gw).newTransaction.isReturnable =
          false) ∧
    (∀ (txs : List Transaction) (tid : String) (gw : Except Unit AnalysisResult)
        (tr : Transaction),
      txs.find? (fun t => t.id = tid) = some tr →
      (isFastFoodPurchase kw tr.item tr.category && !tr.isReturnable) = true →
      ∀ t ∈ txs, t.id = tid →
        ∃ t' ∈ (handleQuickAction kw txs tid QuickDecision.buy gw).transactions,
          t'.id = t.id ∧ t'.category = t.category ∧ t'.hotTake = none ∧
            t'.status = TransactionStatus.Kept ∧ t'.nagCount = 7) := by
  constructor
  · intro sub id date gw hff hret hurge
    unfold handleAddPurchase
    rw [if_pos (by rw [hff, hret, hurge]; rfl)]
    exact ⟨rfl, rfl⟩
  · intro txs tid gw tr hfind hff t ht hid
    simp only [handleQuickAction, hfind, hff, if_true]
    refine ⟨{ t with status := TransactionStatus.Kept, nagCount := MAX_NAGS, hotTake := none }, ?_, rfl, rfl, rfl, rfl, rfl⟩
    refine List.mem_map.mpr ⟨t, ht, ?_⟩
    rw [if_pos hid]

/-- A keyword-matching submission filed under a non-fast-food category. -/
def kwSub : Submission where
  item := "McFlurry"
  amount := 6
  category := "Shopping"
  isReturnable := false
  isUrge := false

/-- An urge for a fast-food item (keyword match), carrying a hot take. -/
def tacoUrgeTx : Transaction where
  id := "4001"
  item := "Taco box"
  amount := 15
  category := "Dining & Entertainment"
  status := TransactionStatus.Urge
  date := "2026-10-12"
  isReturnable := false
  nagCount := 0
  hotTake := some "Sure about that?"

/-- C10 witness: a keyword match alone rewrites the stored category to
"Fast Food" at creation, and the buy-promotion trap keeps the original
category while clearing the hot take. -/
theorem fastfood_rewrites_category_witness :
    ((handleAddPurchase ["mcflurry", "taco"] kwSub "id-10" "2026-10-12"
        (Except.error ())).newTransaction.category = "Fast Food" ∧
      (handleAddPurchase ["mcflurry", "taco"] kwSub "id-10" "2026-10-12"
        (Except.error ())).newTransaction.isReturnable = false) ∧
    (∃ t' ∈ (handleQuickAction ["mcflurry", "taco"] [tacoUrgeTx] "4001"
        QuickDecision.buy (Except.error ())).transactions,
      t'.id = tacoUrgeTx.id ∧ t'.category = tacoUrgeTx.category ∧
        t'.hotTake = none ∧ t'.status = TransactionStatus.Kept ∧
        t'.nagCount = 7) :=
  ⟨(fastfood_rewrites_category ["mcflurry", "taco"]).1 kwSub "id-10"
      "2026-10-12" (Except.error ()) (by decide) rfl rfl,
    (fastfood_rewrites_category ["mcflurry", "taco"]).2 [tacoUrgeTx] "4001"
      (Except.error ()) tacoUrgeTx (by decide) (by decide) tacoUrgeTx
      (by decide) rfl⟩

end Returnley
